import Mathlib

/-!
Shallow embedding of the tgapimanager repository (a Telegram Bot API client
library in Go) together with proofs of the specification's claims about it.

The embedding covers the parts of the code the claims are about:
  the update-polling loop `GetUpdatesChan`, the transport classification in
  `MakeRequest` / `UploadFiles`, the dispatching `Request`, the webhook
  handler `HandleUpdate`, and the parameter builders `BaseChat.params`,
  `BaseEdit.params`, `UpdateConfig.params`, `MessageConfig.params`.

Go machine integers (`int`, `int64`) are modelled as `Int`; none of the
verified code paths perform arithmetic that could overflow at the sizes the
claims involve, and Go's `int` is 64-bit on all platforms the library targets.
Side-effecting collaborators (the HTTP client, the JSON decoder for response
bodies) are modelled as explicit oracle arguments describing their outcome,
so each Go function becomes a pure Lean function of its inputs and of those
outcomes.
-/

namespace TgAPIManager

/-! ## Data model (src/unnamed/part_000, type declarations) -/

/-- Go type `User` from the source (part_000). -/
structure User where
  ID : Int := 0
  IsBot : Bool := false
  FirstName : String := ""
  Username : String := ""
deriving DecidableEq, Repr

/-- Go type `Message` from the source, restricted to its scalar core fields.  The Go
struct carries many further optional payload fields (entities, poll, location,
…); no claim inspects any `Message` field, the poller and webhook carry the
message payload opaquely, so the extra fields are omitted from the embedding. -/
structure Message where
  MessageID : Int := 0
  Date : Int := 0
  Text : String := ""
deriving DecidableEq, Repr

/-- Go type `Update` from the source: the envelope with the integer identifier used by
the polling cursor, and an optional message payload. -/
structure Update where
  UpdateID : Int
  Msg : Option Message := none
deriving DecidableEq, Repr

/-- Go type `ResponseParameters` from the source: the optional error parameters of a
failed API response. -/
structure ResponseParameters where
  MigrateToChatID : Int := 0
  RetryAfter : Int := 0
deriving DecidableEq, Repr

/-- Go type `APIResponse` from the source.  `Result` is `json.RawMessage` in Go,
modelled as its raw text. -/
structure APIResponse where
  Ok : Bool
  Result : String := ""
  ErrorCode : Int := 0
  Description : String := ""
  Parameters : Option ResponseParameters := none
deriving DecidableEq, Repr

/-- Go type `Error` from the source: the typed error built from a failed envelope.
In Go, `ResponseParameters` is an embedded field. -/
structure Error where
  Code : Int := 0
  Message : String := ""
  RespParams : ResponseParameters := ⟨0, 0⟩
deriving DecidableEq, Repr

/-! ## Params (assoc-list model of Go `map[string]string`)

The `Params` type and its helper methods (`AddNonZero`, `AddBool`,
`AddNonEmpty`, `AddFirstValid`, `AddInterface`) belong to this repository but
are not under `src/`; only their call sites in `src/configs.go` are.  They are
modelled below from the spec (section 4.1). -/

/-- Go `Params` is `map[string]string`.  Modelled as an association list; all
call sites in the repository use pairwise distinct keys, so first-match lookup
agrees with Go map lookup. -/
abbrev Params := List (String × String)

/-- Go map read `p[key]`: first binding for `key`, if any. -/
def Params.find? : Params → String → Option String
  | [], _ => none
  | kv :: rest, key => if kv.1 = key then some kv.2 else Params.find? rest key

/-- Go map write `p[key] = value`: replace the existing binding or append. -/
def Params.set : Params → String → String → Params
  | [], key, value => [(key, value)]
  | kv :: rest, key, value =>
    if kv.1 = key then (key, value) :: rest
    else kv :: Params.set rest key value

/-- Modelled from the spec: `Params.AddNonZero` is repository code missing
from `src/` (only its call sites in `src/configs.go` are present).  Spec 4.1:
"include optional scalar fields only if they differ from their zero value". -/
def Params.AddNonZero (p : Params) (key : String) (value : Int) : Params :=
  if value ≠ 0 then p.set key (toString value) else p

/-- Modelled from the spec: `Params.AddBool` is repository code missing from
`src/`.  A `bool` differs from its zero value exactly when it is true; Go
formats it as "true". -/
def Params.AddBool (p : Params) (key : String) (value : Bool) : Params :=
  if value then p.set key (toString value) else p

/-- Modelled from the spec: `Params.AddNonEmpty` is repository code missing
from `src/`.  A string differs from its zero value when it is non-empty. -/
def Params.AddNonEmpty (p : Params) (key value : String) : Params :=
  if value ≠ "" then p.set key value else p

/-- Modelled from the spec: `Params.AddFirstValid` is repository code missing
from `src/`.  Every call site passes a numeric chat identifier followed by a
textual channel handle; spec 4.1: "when both a numeric chat identifier and a
textual channel handle are present, prefer the numeric identifier and omit the
handle", with the zero-value rule deciding presence. -/
def Params.AddFirstValid (p : Params) (key : String) (chatID : Int)
    (username : String) : Params :=
  if chatID ≠ 0 then p.set key (toString chatID)
  else if username ≠ "" then p.set key username
  else p

/-- The outcome of handing one Go `interface` value to `json.Marshal`:
the value is nil (field absent), or it marshals to some JSON text, or
marshalling fails with an error.  Fields of concrete Go types whose
marshalling cannot fail are injected with `JSONField.ofTotal`. -/
inductive JSONField where
  | nil
  | marshalled (s : String)
  | marshalErr (e : String)
deriving DecidableEq, Repr

/-- Inject the marshalled text of a field whose Go type always marshals
successfully (string slices, entity slices, pointers to plain structs). -/
def JSONField.ofTotal : Option String → JSONField
  | none => .nil
  | some s => .marshalled s

/-- Modelled from the spec: `Params.AddInterface` is repository code missing
from `src/`.  Spec 4.1: "include optional structured fields … by serializing
to JSON text, propagating a serialization failure as an error"; a nil value is
skipped.  Returns the updated map and the error, as the Go method does. -/
def Params.AddInterface (p : Params) (key : String) (v : JSONField) :
    Params × Option String :=
  match v with
  | .nil => (p, none)
  | .marshalErr e => (p, some e)
  | .marshalled s => (p.set key s, none)

/-! ## JSON marshalling of concrete struct types

`json.Marshal` cannot fail on the concrete Go types below (slices of strings,
entity structs, keyboard structs): marshalling of strings, ints and bools is
total.  The exact JSON text is never relied upon by any theorem; these
functions only witness that the serialization is a total function. -/

/-- JSON text of a Go string (escaping elided; no theorem inspects it). -/
def jsonStr (s : String) : String := "\"" ++ s ++ "\""

/-- JSON array out of member texts. -/
def jsonArr (elems : List String) : String :=
  "[" ++ String.intercalate "," elems ++ "]"

/-- JSON object out of key/value texts. -/
def jsonObj (fields : List (String × String)) : String :=
  "\x7b" ++ String.intercalate "," (fields.map (fun kv => jsonStr kv.1 ++ ":" ++ kv.2)) ++ "\x7d"

/-- Go type `MessageEntity` from the source (part_000). -/
structure MessageEntity where
  EType : String := ""
  EntOffset : Int := 0
  Length : Int := 0
  URL : String := ""
  EntUser : Option User := none
  Language : String := ""
deriving DecidableEq, Repr

/-- Total JSON marshalling of one entity. -/
def MessageEntity.toJSON (e : MessageEntity) : String :=
  jsonObj [("type", jsonStr e.EType), ("offset", toString e.EntOffset),
           ("length", toString e.Length)]

/-- Total JSON marshalling of an entity list. -/
def marshalEntities (es : List MessageEntity) : String :=
  jsonArr (es.map MessageEntity.toJSON)

/-- Total JSON marshalling of a string list (`allowed_updates`). -/
def marshalStringList (xs : List String) : String :=
  jsonArr (xs.map jsonStr)

/-- Go type `InlineKeyboardButton` from the source, scalar core; the remaining
optional sub-objects (login url, callback game) are never inspected. -/
structure InlineKeyboardButton where
  Text : String := ""
  URL : Option String := none
  CallbackData : Option String := none
  SwitchInlineQuery : Option String := none
  Pay : Bool := false
deriving DecidableEq, Repr

/-- Go type `InlineKeyboardMarkup` from the source. -/
structure InlineKeyboardMarkup where
  InlineKeyboard : List (List InlineKeyboardButton) := []
deriving DecidableEq, Repr

/-- Total JSON marshalling of an inline keyboard (a struct of strings and
bools; `json.Marshal` cannot fail on it). -/
def InlineKeyboardMarkup.toJSON (m : InlineKeyboardMarkup) : String :=
  jsonObj [("inline_keyboard",
    jsonArr (m.InlineKeyboard.map (fun row =>
      jsonArr (row.map (fun b => jsonObj [("text", jsonStr b.Text)])))))]

/-! ## Configuration objects and their `params` builders (src/configs.go) -/

/-- Go type `BaseChat` from src/configs.go.  `ReplyMarkup` has Go type `interface`,
so its marshalling outcome is an arbitrary `JSONField`. -/
structure BaseChat where
  ChatID : Int := 0
  ChannelUsername : String := ""
  ReplyToMessageID : Int := 0
  ReplyMarkup : JSONField := .nil
  DisableNotification : Bool := false
  AllowSendingWithoutReply : Bool := false
deriving DecidableEq, Repr

/-- Function `BaseChat.params` from src/configs.go lines 33-44.  Returns the parameter
map together with the `AddInterface` error, as the Go method does. -/
def BaseChat.params (chat : BaseChat) : Params × Option String :=
  let params : Params := []
  let params := params.AddFirstValid "chat_id" chat.ChatID chat.ChannelUsername
  let params := params.AddNonZero "reply_to_message_id" chat.ReplyToMessageID
  let params := params.AddBool "disable_notification" chat.DisableNotification
  let params := params.AddBool "allow_sending_without_reply" chat.AllowSendingWithoutReply
  params.AddInterface "reply_markup" chat.ReplyMarkup

/-- Go type `MessageConfig` from src/configs.go. -/
structure MessageConfig where
  Base : BaseChat := ⟨0, "", 0, .nil, false, false⟩
  Text : String := ""
  ParseMode : String := ""
  Entities : Option (List MessageEntity) := none
  DisableWebPagePreview : Bool := false
deriving DecidableEq, Repr

/-- Function `MessageConfig.params` from src/configs.go lines 46-58: build the base
chat parameters, return early on their error, then add the message fields. -/
def MessageConfig.params (config : MessageConfig) : Params × Option String :=
  match config.Base.params with
  | (params, some e) => (params, some e)
  | (params, none) =>
    let params := params.AddNonEmpty "text" config.Text
    let params := params.AddBool "disable_web_page_preview" config.DisableWebPagePreview
    let params := params.AddNonEmpty "parse_mode" config.ParseMode
    params.AddInterface "entities" (JSONField.ofTotal (config.Entities.map marshalEntities))

/-- Go type `UpdateConfig` from src/configs.go. -/
structure UpdateConfig where
  Offset : Int := 0
  Limit : Int := 0
  Timeout : Int := 0
  AllowedUpdates : Option (List String) := none
deriving DecidableEq, Repr

/-- Function `UpdateConfig.params` from src/configs.go lines 109-118.  The Go code
discards the result of `AddInterface` for `allowed_updates` and returns a nil
error unconditionally; marshalling a string slice cannot fail, so no error is
lost. -/
def UpdateConfig.params (config : UpdateConfig) : Params × Option String :=
  let params : Params := []
  let params := params.AddNonZero "offset" config.Offset
  let params := params.AddNonZero "limit" config.Limit
  let params := params.AddNonZero "timeout" config.Timeout
  let params := (params.AddInterface "allowed_updates"
    (JSONField.ofTotal (config.AllowedUpdates.map marshalStringList))).1
  (params, none)

/-- Go type `BaseEdit` from src/configs.go.  `ReplyMarkup` is a pointer to
`InlineKeyboardMarkup` in Go: nil or a value whose marshalling is total. -/
structure BaseEdit where
  ChatID : Int := 0
  ChannelUsername : String := ""
  MessageID : Int := 0
  InlineMessageID : String := ""
  ReplyMarkup : Option InlineKeyboardMarkup := none
deriving DecidableEq, Repr

/-- Function `BaseEdit.params` from src/configs.go lines 189-202: a non-empty inline
message identifier is used alone, otherwise the chat/message pair targets the
message. -/
def BaseEdit.params (edit : BaseEdit) : Params × Option String :=
  let params : Params := []
  let params :=
    if edit.InlineMessageID ≠ "" then
      params.set "inline_message_id" edit.InlineMessageID
    else
      (params.AddFirstValid "chat_id" edit.ChatID edit.ChannelUsername).AddNonZero
        "message_id" edit.MessageID
  params.AddInterface "reply_markup"
    (JSONField.ofTotal (edit.ReplyMarkup.map InlineKeyboardMarkup.toJSON))

/-! ## Transport (src/unnamed/part_000, `MakeRequest` / `UploadFiles`)

The HTTP round trip (`http.NewRequest`, `bot.Client.Do`) and the JSON decode
of the response body (`decodeAPIResponse`) are side-effecting collaborators;
their combined outcome is passed in as an `HTTPResult` oracle value.  What the
embedding captures is the classification that follows: how a decoded envelope
is turned into a success, a typed API error, or a transport error. -/

/-- Combined outcome of `bot.Client.Do` plus `decodeAPIResponse` for one
request. -/
inductive HTTPResult where
  | clientErr (e : String)
  | decodeErr (e : String)
  | decoded (resp : APIResponse)
deriving DecidableEq, Repr

/-- What a transport call returns to its caller. -/
inductive RequestOutcome where
  | transportErr (e : String)
  | apiErr (resp : APIResponse) (err : Error)
  | success (resp : APIResponse)
deriving DecidableEq, Repr

/-- The typed error excerpt of an outcome, if there is one. -/
def RequestOutcome.apiError? : RequestOutcome → Option Error
  | .apiErr _ e => some e
  | _ => none

/-- Function `MakeRequest` from part_000 lines 107-153.  The URL built from the
endpoint and the encoded form body affect the outcome only through the HTTP
oracle.  Lines 138-152: a decoded envelope with `Ok` false becomes a typed
`Error` carrying the remote code, the description, and the dereferenced
parameters (zero value when absent). -/
def MakeRequest (endpoint : String) (params : Params) (http : HTTPResult) :
    RequestOutcome :=
  let _ := endpoint
  let _ := params
  match http with
  | .clientErr e => .transportErr e
  | .decodeErr e => .transportErr e
  | .decoded resp =>
    if resp.Ok then .success resp
    else .apiErr resp
      { Code := resp.ErrorCode
        Message := resp.Description
        RespParams := resp.Parameters.getD ⟨0, 0⟩ }

/-- Function `UploadFiles` from part_000 lines 180-276.  The multipart body writing
runs in a goroutine feeding the request through a pipe; as in `MakeRequest`,
the round trip is the HTTP oracle.  Lines 262-275: the error literal built
from a failed envelope sets `Message` and `ResponseParameters` but, unlike
`MakeRequest`, not `Code`, which is left at its zero value. -/
def UploadFiles (endpoint : String) (params : Params) (http : HTTPResult) :
    RequestOutcome :=
  let _ := endpoint
  let _ := params
  match http with
  | .clientErr e => .transportErr e
  | .decodeErr e => .transportErr e
  | .decoded resp =>
    if resp.Ok then .success resp
    else .apiErr resp
      { Code := 0
        Message := resp.Description
        RespParams := resp.Parameters.getD ⟨0, 0⟩ }

/-! ## Request dispatch (src/unnamed/part_000, `Request`) -/

/-- The `Chattable` interface, as the closed family of the embedded config
types.  None of these implements `Fileable` in the source, so the file branch
of `Request` is not reached for them. -/
inductive Chattable where
  | message (c : MessageConfig)
  | update (c : UpdateConfig)
  | edit (c : BaseEdit)
deriving DecidableEq, Repr

/-- Method dispatch `method()` of each embedded config (src/configs.go). -/
def Chattable.method : Chattable → String
  | .message _ => "sendMessage"
  | .update _ => "getUpdates"
  | .edit _ => "editMessageReplyMarkup"

/-- Method dispatch `params()` of each embedded config. -/
def Chattable.params : Chattable → Params × Option String
  | .message c => c.params
  | .update c => c.params
  | .edit c => c.params

/-- Function `Request` from part_000 lines 305-328: build the parameters; on a params
error return it to the caller at once; otherwise delegate to `MakeRequest`.
The second component counts the HTTP requests issued by the call, zero on the
early error return and one once `MakeRequest` runs `bot.Client.Do`. -/
def Request (http : HTTPResult) (c : Chattable) : RequestOutcome × Nat :=
  match c.params with
  | (_, some e) => (.transportErr e, 0)
  | (p, none) => (MakeRequest c.method p http, 1)

/-! ## Update poller (src/unnamed/part_000, `GetUpdatesChan`) -/

/-- Outcome of one `bot.GetUpdates(config)` call inside the polling loop. -/
inductive FetchResult where
  | ok (updates : List Update)
  | err (e : String)
deriving DecidableEq, Repr

/-- The backoff of part_000 line 387: `time.Sleep(time.Second * 3)`,
a constant (not exponential) three seconds. -/
def retryBackoffSeconds : Nat := 3

/-- The inner `for _, update := range updates` loop of `GetUpdatesChan`
(part_000 lines 392-397): updates whose identifier reaches the current
`config.Offset` are sent on the channel and advance the offset to the
identifier plus one; smaller identifiers are skipped.  Returns the offset
after the batch and the updates emitted, in emission order. -/
def processBatch (offset : Int) : List Update → Int × List Update
  | [] => (offset, [])
  | u :: rest =>
    if offset ≤ u.UpdateID then
      let p := processBatch (u.UpdateID + 1) rest
      (p.1, u :: p.2)
    else
      processBatch offset rest

/-- Input to one iteration of the polling goroutine: whether the shutdown
channel is closed when the non-blocking `select` at the top of the loop runs,
and the outcome `bot.GetUpdates` would produce if the iteration fetches. -/
structure IterInput where
  shutdown : Bool
  fetch : FetchResult
deriving DecidableEq, Repr

/-- Observable result of running the polling goroutine over a trace of
iteration inputs. -/
structure RunResult where
  offset : Int
  emitted : List Update
  fetchCalls : Nat
  backoffSleeps : Nat
  closed : Bool
deriving DecidableEq, Repr

/-- The polling goroutine of `GetUpdatesChan` (part_000 lines 374-399), run
over a finite trace of iteration inputs.  Each iteration first checks the
shutdown channel: if it is closed the output channel is closed and the
goroutine returns, consuming nothing further from the trace.  Otherwise it
fetches; a fetch error sleeps the fixed backoff and retries with the cursor
unchanged, and a successful batch is folded by `processBatch`.  An exhausted
trace leaves the loop still running (`closed` false). -/
def pollLoop (offset : Int) : List IterInput → RunResult
  | [] => ⟨offset, [], 0, 0, false⟩
  | i :: rest =>
    if i.shutdown then ⟨offset, [], 0, 0, true⟩
    else
      match i.fetch with
      | .err _ =>
        let r := pollLoop offset rest
        ⟨r.offset, r.emitted, r.fetchCalls + 1, r.backoffSleeps + 1, r.closed⟩
      | .ok us =>
        let p := processBatch offset us
        let r := pollLoop p.1 rest
        ⟨r.offset, p.2 ++ r.emitted, r.fetchCalls + 1, r.backoffSleeps, r.closed⟩

/-! ## Webhook adapter (src/unnamed/part_000, `HandleUpdate`) -/

/-- Function `HandleUpdate` from part_000 lines 455-468.  The JSON decode of the
request body is a collaborator; its outcome is the `body` oracle.  A
non-POST method is rejected before the body is read; a decode error is
returned verbatim; otherwise the decoded update is returned with a nil
error. -/
def HandleUpdate (method : String) (body : Except String Update) :
    Except String Update :=
  if method ≠ "POST" then .error "wrong HTTP method required POST"
  else body

/-! ## Poller lemmas -/

/-- Unfolding equation for `processBatch` on a cons cell. -/
theorem processBatch_cons (offset : Int) (u : Update) (rest : List Update) :
    processBatch offset (u :: rest) =
      if offset ≤ u.UpdateID then
        ((processBatch (u.UpdateID + 1) rest).1,
          u :: (processBatch (u.UpdateID + 1) rest).2)
      else processBatch offset rest := rfl

/-- The cursor never moves backwards over a batch. -/
theorem processBatch_le (offset : Int) (us : List Update) :
    offset ≤ (processBatch offset us).1 := by
  induction us generalizing offset with
  | nil => simp [processBatch]
  | cons u rest ih =>
    rw [processBatch_cons]
    by_cases h : offset ≤ u.UpdateID
    · rw [if_pos h]
      exact le_trans (by omega) (ih (u.UpdateID + 1))
    · rw [if_neg h]
      exact ih offset

/-- After a batch is processed, the cursor is past every identifier in the
batch, emitted or dropped. -/
theorem processBatch_lt_of_mem (offset : Int) (us : List Update) :
    ∀ u ∈ us, u.UpdateID < (processBatch offset us).1 := by
  induction us generalizing offset with
  | nil => intro u hu; cases hu
  | cons v rest ih =>
    intro u hu
    rw [processBatch_cons]
    by_cases h : offset ≤ v.UpdateID
    · rw [if_pos h]
      rcases List.mem_cons.mp hu with rfl | hmem
      · exact lt_of_lt_of_le (by omega) (processBatch_le (u.UpdateID + 1) rest)
      · exact ih (v.UpdateID + 1) u hmem
    · rw [if_neg h]
      rcases List.mem_cons.mp hu with rfl | hmem
      · exact lt_of_lt_of_le (by omega) (processBatch_le offset rest)
      · exact ih offset u hmem

/-- A batch whose identifiers are all below the cursor is processed without
any emission or cursor movement. -/
theorem processBatch_stale (offset : Int) (us : List Update)
    (h : ∀ u ∈ us, u.UpdateID < offset) :
    processBatch offset us = (offset, []) := by
  induction us with
  | nil => rfl
  | cons v rest ih =>
    rw [processBatch_cons, if_neg (by have := h v (by simp); omega)]
    exact ih fun u hu => h u (List.mem_cons_of_mem v hu)

/-- If a batch emits nothing, the cursor is unchanged. -/
theorem processBatch_fst_of_emitted_nil (offset : Int) (us : List Update)
    (h : (processBatch offset us).2 = []) :
    (processBatch offset us).1 = offset := by
  induction us generalizing offset with
  | nil => rfl
  | cons v rest ih =>
    rw [processBatch_cons] at h ⊢
    by_cases hc : offset ≤ v.UpdateID
    · rw [if_pos hc] at h; cases h
    · rw [if_neg hc] at h ⊢; exact ih offset h

/-- If a batch emits anything, the final cursor is one past the identifier of
one of the emitted updates. -/
theorem processBatch_cursor_of_emitted (offset : Int) (us : List Update)
    (h : (processBatch offset us).2 ≠ []) :
    ∃ u ∈ (processBatch offset us).2, (processBatch offset us).1 = u.UpdateID + 1 := by
  induction us generalizing offset with
  | nil => exact absurd rfl h
  | cons v rest ih =>
    rw [processBatch_cons] at h ⊢
    by_cases hc : offset ≤ v.UpdateID
    · rw [if_pos hc] at h ⊢
      by_cases hrest : (processBatch (v.UpdateID + 1) rest).2 = []
      · refine ⟨v, by simp, ?_⟩
        simpa [hrest] using processBatch_fst_of_emitted_nil (v.UpdateID + 1) rest hrest
      · rcases ih (v.UpdateID + 1) hrest with ⟨u, hmem, heq⟩
        exact ⟨u, List.mem_cons_of_mem v hmem, heq⟩
    · rw [if_neg hc] at h ⊢
      exact ih offset h

/-- On a batch with strictly increasing identifiers, the emitted updates are
exactly the batch elements whose identifier reaches the starting cursor, in
batch order. -/
theorem processBatch_emitted_filter (offset : Int) (us : List Update)
    (hids : us.Pairwise (fun a b => a.UpdateID < b.UpdateID)) :
    (processBatch offset us).2 =
      us.filter (fun u => decide (offset ≤ u.UpdateID)) := by
  induction us generalizing offset with
  | nil => rfl
  | cons v rest ih =>
    rcases List.pairwise_cons.mp hids with ⟨hv, hrest⟩
    rw [processBatch_cons]
    by_cases hc : offset ≤ v.UpdateID
    · rw [if_pos hc, List.filter_cons_of_pos (by simpa using hc)]
      have hcongr : rest.filter (fun u => decide (v.UpdateID + 1 ≤ u.UpdateID)) =
          rest.filter (fun u => decide (offset ≤ u.UpdateID)) := by
        apply List.filter_congr
        intro u hu
        have := hv u hu
        simp only [decide_eq_decide]
        omega
      simp only []
      rw [ih (v.UpdateID + 1) hrest, hcongr]
    · rw [if_neg hc, List.filter_cons_of_neg (by simpa using hc)]
      exact ih offset hrest

/-! ## Claims about the poller -/

/-- C1: over one fetched batch with strictly increasing identifiers (the
spec's data-model invariant for updates), the inner loop of `GetUpdatesChan`
emits exactly the updates whose identifier is at least the cursor, in batch
order, silently dropping the rest; afterwards the cursor is unchanged when
nothing was emitted and otherwise equals the greatest emitted identifier plus
one (every emitted identifier is below the new cursor and the new cursor is
one past one of them). -/
theorem getUpdatesChan_emits_exactly_new_updates (offset : Int)
    (batch : List Update)
    (hids : batch.Pairwise (fun a b => a.UpdateID < b.UpdateID)) :
    (processBatch offset batch).2 =
      batch.filter (fun u => decide (offset ≤ u.UpdateID))
    ∧ ((processBatch offset batch).2 = [] → (processBatch offset batch).1 = offset)
    ∧ ((processBatch offset batch).2 ≠ [] →
        (∀ u ∈ (processBatch offset batch).2,
          u.UpdateID < (processBatch offset batch).1)
        ∧ ∃ u ∈ (processBatch offset batch).2,
            (processBatch offset batch).1 = u.UpdateID + 1) := by
  refine ⟨processBatch_emitted_filter offset batch hids,
    processBatch_fst_of_emitted_nil offset batch, fun hne => ⟨?_, ?_⟩⟩
  · intro u hu
    have hmem : u ∈ batch := by
      have := (processBatch_emitted_filter offset batch hids) ▸ hu
      exact (List.mem_filter.mp this).1
    exact processBatch_lt_of_mem offset batch u hmem
  · exact processBatch_cursor_of_emitted offset batch hne

/-- Witness for C1 at the spec's concrete scenario. -/
theorem getUpdatesChan_emits_exactly_new_updates_witness :
    ([⟨4, none⟩, ⟨6, none⟩, ⟨7, none⟩] : List Update).Pairwise
      (fun a b => a.UpdateID < b.UpdateID)
    ∧ ((processBatch 5 [⟨4, none⟩, ⟨6, none⟩, ⟨7, none⟩]).2 =
        ([⟨4, none⟩, ⟨6, none⟩, ⟨7, none⟩] : List Update).filter
          (fun u => decide ((5 : Int) ≤ u.UpdateID))
      ∧ ((processBatch 5 [⟨4, none⟩, ⟨6, none⟩, ⟨7, none⟩]).2 = [] →
          (processBatch 5 [⟨4, none⟩, ⟨6, none⟩, ⟨7, none⟩]).1 = 5)
      ∧ ((processBatch 5 [⟨4, none⟩, ⟨6, none⟩, ⟨7, none⟩]).2 ≠ [] →
          (∀ u ∈ (processBatch 5 [⟨4, none⟩, ⟨6, none⟩, ⟨7, none⟩]).2,
            u.UpdateID < (processBatch 5 [⟨4, none⟩, ⟨6, none⟩, ⟨7, none⟩]).1)
          ∧ ∃ u ∈ (processBatch 5 [⟨4, none⟩, ⟨6, none⟩, ⟨7, none⟩]).2,
              (processBatch 5 [⟨4, none⟩, ⟨6, none⟩, ⟨7, none⟩]).1 =
                u.UpdateID + 1)) :=
  ⟨by decide,
    getUpdatesChan_emits_exactly_new_updates 5
      [⟨4, none⟩, ⟨6, none⟩, ⟨7, none⟩] (by decide)⟩

/-- C2: with cursor 5 and fetched batch of identifiers 4, 6, 7, the poller
emits exactly the updates 6 and 7 in that order and the cursor becomes 8. -/
theorem getUpdatesChan_scenario_offset_five :
    processBatch 5 [⟨4, none⟩, ⟨6, none⟩, ⟨7, none⟩] =
      (8, [⟨6, none⟩, ⟨7, none⟩]) := by decide

/-- C3: processing a batch always advances the cursor past every identifier
in it, and re-processing the identical batch from that cursor emits nothing
and leaves the cursor unchanged. -/
theorem getUpdatesChan_batch_idempotent (offset : Int) (batch : List Update) :
    (∀ u ∈ batch, u.UpdateID < (processBatch offset batch).1)
    ∧ processBatch (processBatch offset batch).1 batch =
        ((processBatch offset batch).1, []) :=
  ⟨processBatch_lt_of_mem offset batch,
    processBatch_stale (processBatch offset batch).1 batch
      (processBatch_lt_of_mem offset batch)⟩

/-- Unfolding equation of `pollLoop` for a failed fetch iteration. -/
theorem pollLoop_err_step (offset : Int) (e : String) (rest : List IterInput) :
    pollLoop offset (⟨false, FetchResult.err e⟩ :: rest) =
      ⟨(pollLoop offset rest).offset, (pollLoop offset rest).emitted,
        (pollLoop offset rest).fetchCalls + 1,
        (pollLoop offset rest).backoffSleeps + 1,
        (pollLoop offset rest).closed⟩ := rfl

/-- C4: a failed fetch iteration emits nothing, leaves the cursor unchanged
and adds one fixed-backoff sleep; any finite number of consecutive failures
followed by a success results in exactly the successful batch being processed
from the unchanged cursor, with one backoff sleep per failure, the loop never
terminating because of the errors; the backoff is the constant 3 seconds. -/
theorem getUpdatesChan_retries_on_error_with_fixed_backoff (offset : Int)
    (e : String) (n : Nat) (batch : List Update) (rest : List IterInput) :
    pollLoop offset
        (List.replicate n ⟨false, .err e⟩ ++ [⟨false, .ok batch⟩]) =
      ⟨(processBatch offset batch).1, (processBatch offset batch).2,
        n + 1, n, false⟩
    ∧ pollLoop offset (⟨false, FetchResult.err e⟩ :: rest) =
        ⟨(pollLoop offset rest).offset, (pollLoop offset rest).emitted,
          (pollLoop offset rest).fetchCalls + 1,
          (pollLoop offset rest).backoffSleeps + 1,
          (pollLoop offset rest).closed⟩
    ∧ retryBackoffSeconds = 3 := by
  refine ⟨?_, rfl, rfl⟩
  induction n with
  | zero => simp [pollLoop]
  | succ m ih =>
    rw [List.replicate_succ, List.cons_append, pollLoop_err_step, ih]

/-- C5: if the shutdown signal is observed at the top of an iteration, the
loop closes the output channel and stops, issuing no fetch and emitting
nothing, whatever trace would have followed; when the signal arrives during a
fetch, that fetch completes and its updates are delivered, and the next
iteration closes without another fetch, again regardless of the rest of the
trace — so nothing is emitted after the close and a stopped loop never runs
again. -/
theorem getUpdatesChan_shutdown_closes_cleanly (offset : Int)
    (us : List Update) (f f₂ : FetchResult) (rest rest₂ : List IterInput) :
    pollLoop offset (⟨true, f₂⟩ :: rest₂) = ⟨offset, [], 0, 0, true⟩
    ∧ pollLoop offset (⟨false, .ok us⟩ :: ⟨true, f⟩ :: rest) =
        ⟨(processBatch offset us).1, (processBatch offset us).2, 1, 0, true⟩ := by
  constructor
  · rfl
  · simp [pollLoop]

/-! ## Params lemmas -/

/-- Lookup after a map write: the written key reads back the written value,
every other key is unaffected. -/
theorem Params.find?_set (p : Params) (key value k : String) :
    Params.find? (Params.set p key value) k =
      if key = k then some value else Params.find? p k := by
  induction p with
  | nil => simp [Params.set, Params.find?]
  | cons kv rest ih =>
    by_cases h1 : kv.1 = key
    · rw [Params.set, if_pos h1]
      by_cases h2 : key = k
      · simp [Params.find?, h2]
      · simp [Params.find?, h1, h2]
    · rw [Params.set, if_neg h1]
      by_cases h2 : kv.1 = k
      · have h3 : ¬ key = k := fun hh => h1 (h2.trans hh.symm)
        simp [Params.find?, h2, h3]
      · simp [Params.find?, h2, ih]

/-- Helper `AddNonZero` leaves every other key unchanged. -/
theorem Params.find?_AddNonZero_other (p : Params) (key k : String) (v : Int)
    (h : key ≠ k) :
    Params.find? (Params.AddNonZero p key v) k = Params.find? p k := by
  unfold Params.AddNonZero
  split <;> simp [Params.find?_set, h]

/-- Helper `AddNonZero` at its own key: the value when it is non-zero, the previous
binding otherwise. -/
theorem Params.find?_AddNonZero_self (p : Params) (key : String) (v : Int) :
    Params.find? (Params.AddNonZero p key v) key =
      if v ≠ 0 then some (toString v) else Params.find? p key := by
  unfold Params.AddNonZero
  split <;> simp_all [Params.find?_set]

/-- Helper `AddBool` leaves every other key unchanged. -/
theorem Params.find?_AddBool_other (p : Params) (key k : String) (v : Bool)
    (h : key ≠ k) :
    Params.find? (Params.AddBool p key v) k = Params.find? p k := by
  unfold Params.AddBool
  split <;> simp [Params.find?_set, h]

/-- Helper `AddNonEmpty` leaves every other key unchanged. -/
theorem Params.find?_AddNonEmpty_other (p : Params) (key k v : String)
    (h : key ≠ k) :
    Params.find? (Params.AddNonEmpty p key v) k = Params.find? p k := by
  unfold Params.AddNonEmpty
  split <;> simp [Params.find?_set, h]

/-- The map component of `AddInterface` leaves every other key unchanged. -/
theorem Params.find?_AddInterface_other (p : Params) (key k : String)
    (v : JSONField) (h : key ≠ k) :
    Params.find? (Params.AddInterface p key v).1 k = Params.find? p k := by
  cases v <;> simp [Params.AddInterface, Params.find?_set, h]

/-- Helper `AddFirstValid` leaves every other key unchanged. -/
theorem Params.find?_AddFirstValid_other (p : Params) (key k : String)
    (chatID : Int) (username : String) (h : key ≠ k) :
    Params.find? (Params.AddFirstValid p key chatID username) k =
      Params.find? p k := by
  unfold Params.AddFirstValid
  split
  · simp [Params.find?_set, h]
  · split <;> simp [Params.find?_set, h]

/-- Helper `AddFirstValid` at its own key: the numeric identifier when non-zero,
else the handle when non-empty, else the previous binding. -/
theorem Params.find?_AddFirstValid_self (p : Params) (key : String)
    (chatID : Int) (username : String) :
    Params.find? (Params.AddFirstValid p key chatID username) key =
      if chatID ≠ 0 then some (toString chatID)
      else if username ≠ "" then some username
      else Params.find? p key := by
  unfold Params.AddFirstValid
  split
  · simp_all [Params.find?_set]
  · split <;> simp_all [Params.find?_set]

/-- When the numeric chat identifier is non-zero, `AddFirstValid` writes it
and ignores the textual handle entirely. -/
theorem Params.AddFirstValid_of_ne_zero (p : Params) (key : String)
    (chatID : Int) (username : String) (h : chatID ≠ 0) :
    Params.AddFirstValid p key chatID username =
      Params.set p key (toString chatID) := by
  unfold Params.AddFirstValid
  simp [h]

/-! ## Claims about the transport, request dispatch, webhook and codecs -/

/-- A sample failed envelope: flood control with a retry hint. -/
def uploadFailResp : APIResponse :=
  { Ok := false, Result := "", ErrorCode := 404, Description := "Not Found",
    Parameters := some ⟨0, 7⟩ }

/-- C6 counterexample: on the multipart upload path, the typed error built
from a failed envelope does not carry the remote error code — `UploadFiles`
leaves the `Code` field at zero while the envelope's code is 404, refuting
the claim that both request paths return an error carrying the remote code. -/
theorem uploadFiles_error_lacks_remote_code :
    uploadFailResp.Ok = false
    ∧ uploadFailResp.ErrorCode = 404
    ∧ (UploadFiles "sendDocument" [] (.decoded uploadFailResp)).apiError?.map
        Error.Code ≠ some uploadFailResp.ErrorCode := by
  refine ⟨rfl, rfl, ?_⟩
  decide

/-- C6 (amended): for every envelope whose success flag is false, the
form-encoded path `MakeRequest` returns a typed error carrying the remote
error code, the description, and the retry-after/migrate parameters when
present (zero values otherwise); the multipart path `UploadFiles` returns a
typed error carrying the description and those parameters, but its code field
is left at zero. -/
theorem api_error_classification (endpoint : String) (params : Params)
    (resp : APIResponse) (h : resp.Ok = false) :
    MakeRequest endpoint params (.decoded resp) =
      .apiErr resp ⟨resp.ErrorCode, resp.Description, resp.Parameters.getD ⟨0, 0⟩⟩
    ∧ UploadFiles endpoint params (.decoded resp) =
      .apiErr resp ⟨0, resp.Description, resp.Parameters.getD ⟨0, 0⟩⟩ := by
  constructor <;> simp [MakeRequest, UploadFiles, h]

/-- Witness for the amended C6 at the sample envelope. -/
theorem api_error_classification_witness :
    uploadFailResp.Ok = false
    ∧ (MakeRequest "getMe" [] (.decoded uploadFailResp) =
        .apiErr uploadFailResp
          ⟨uploadFailResp.ErrorCode, uploadFailResp.Description,
            uploadFailResp.Parameters.getD ⟨0, 0⟩⟩
      ∧ UploadFiles "getMe" [] (.decoded uploadFailResp) =
        .apiErr uploadFailResp
          ⟨0, uploadFailResp.Description, uploadFailResp.Parameters.getD ⟨0, 0⟩⟩) :=
  ⟨rfl, api_error_classification "getMe" [] uploadFailResp rfl⟩

/-- C7: a serialization failure of the keyboard field — the only structured
field of the embedded configs whose Go type (`interface`) can fail to
marshal — is returned as the error of `BaseChat.params`, propagated by
`MessageConfig.params`, and returned by `Request` with zero HTTP requests
issued; `UpdateConfig.params` never returns an error because marshalling its
string-list field is total. -/
theorem params_error_precedes_network (cfg : MessageConfig) (e : String)
    (http : HTTPResult) (ucfg : UpdateConfig)
    (h : cfg.Base.ReplyMarkup = .marshalErr e) :
    (cfg.Base.params).2 = some e
    ∧ (cfg.params).2 = some e
    ∧ Request http (.message cfg) = (.transportErr e, 0)
    ∧ (ucfg.params).2 = none := by
  have h2 : (cfg.Base.params).2 = some e := by
    simp [BaseChat.params, Params.AddInterface, h]
  have hpair : cfg.Base.params = ((cfg.Base.params).1, some e) := by
    rw [← h2]
  have h3 : cfg.params = ((cfg.Base.params).1, some e) := by
    unfold MessageConfig.params
    rw [hpair]
  refine ⟨h2, by rw [h3], ?_, rfl⟩
  unfold Request
  have : Chattable.params (.message cfg) = ((cfg.Base.params).1, some e) := h3
  rw [this]

/-- A message config whose keyboard fails to marshal, for the C7 witness. -/
def cfgC7 : MessageConfig :=
  { Base := ⟨12, "", 0, .marshalErr "json: unsupported type", false, false⟩,
    Text := "hi", ParseMode := "", Entities := none,
    DisableWebPagePreview := false }

/-- Witness for C7 at a concrete failing keyboard. -/
theorem params_error_precedes_network_witness :
    cfgC7.Base.ReplyMarkup = .marshalErr "json: unsupported type"
    ∧ ((cfgC7.Base.params).2 = some "json: unsupported type"
      ∧ (cfgC7.params).2 = some "json: unsupported type"
      ∧ Request (.clientErr "unreachable") (.message cfgC7) =
          (.transportErr "json: unsupported type", 0)
      ∧ ((⟨0, 0, 0, none⟩ : UpdateConfig).params).2 = none) :=
  ⟨rfl, params_error_precedes_network cfgC7 "json: unsupported type"
    (.clientErr "unreachable") ⟨0, 0, 0, none⟩ rfl⟩

/-- C8: the webhook handler rejects any non-POST request with its fixed
error and no update, returns a body-decode error verbatim with no update,
and returns the decoded update with no error otherwise. -/
theorem handleUpdate_contract (method : String) (body : Except String Update)
    (e : String) (u : Update) :
    (method ≠ "POST" →
      HandleUpdate method body = .error "wrong HTTP method required POST")
    ∧ HandleUpdate "POST" (.error e) = .error e
    ∧ HandleUpdate "POST" (.ok u) = .ok u := by
  refine ⟨fun h => ?_, ?_, ?_⟩ <;> simp [HandleUpdate, *]

/-- Witness for C8: a GET is rejected, a decode error passes through, a good
body yields the update. -/
theorem handleUpdate_contract_witness :
    HandleUpdate "GET" (.ok ⟨1, none⟩) = .error "wrong HTTP method required POST"
    ∧ HandleUpdate "POST" (.error "invalid character") = .error "invalid character"
    ∧ HandleUpdate "POST" (.ok ⟨1, none⟩) = .ok ⟨1, none⟩ :=
  ⟨(handleUpdate_contract "GET" (.ok ⟨1, none⟩) "invalid character" ⟨1, none⟩).1
      (by decide),
    (handleUpdate_contract "GET" (.ok ⟨1, none⟩) "invalid character" ⟨1, none⟩).2.1,
    (handleUpdate_contract "GET" (.ok ⟨1, none⟩) "invalid character" ⟨1, none⟩).2.2⟩

/-- C9: when a `BaseChat` has both a non-zero numeric chat identifier and a
non-empty channel handle, the built parameters carry the numeric identifier
under `chat_id` and the handle is omitted: the parameters are the same as if
the handle were empty. -/
theorem baseChat_numeric_id_over_handle (chat : BaseChat)
    (h1 : chat.ChatID ≠ 0) (_h2 : chat.ChannelUsername ≠ "") :
    Params.find? (chat.params).1 "chat_id" = some (toString chat.ChatID)
    ∧ chat.params = BaseChat.params
        ⟨chat.ChatID, "", chat.ReplyToMessageID, chat.ReplyMarkup,
          chat.DisableNotification, chat.AllowSendingWithoutReply⟩ := by
  constructor
  · simp only [BaseChat.params]
    rw [Params.find?_AddInterface_other _ _ _ _ (by decide),
      Params.find?_AddBool_other _ _ _ _ (by decide),
      Params.find?_AddBool_other _ _ _ _ (by decide),
      Params.find?_AddNonZero_other _ _ _ _ (by decide),
      Params.find?_AddFirstValid_self]
    simp [h1]
  · simp only [BaseChat.params]
    rw [Params.AddFirstValid_of_ne_zero _ _ _ _ h1,
      Params.AddFirstValid_of_ne_zero _ _ _ _ h1]

/-- A chat with both identifier styles set, for the C9 witness. -/
def chatC9 : BaseChat := ⟨42, "mychannel", 0, .nil, false, false⟩

/-- Witness for C9 at a concrete chat carrying both identifier styles. -/
theorem baseChat_numeric_id_over_handle_witness :
    chatC9.ChatID ≠ 0 ∧ chatC9.ChannelUsername ≠ ""
    ∧ (Params.find? (chatC9.params).1 "chat_id" = some (toString chatC9.ChatID)
      ∧ chatC9.params = BaseChat.params
          ⟨chatC9.ChatID, "", chatC9.ReplyToMessageID, chatC9.ReplyMarkup,
            chatC9.DisableNotification, chatC9.AllowSendingWithoutReply⟩) :=
  ⟨by decide, by decide,
    baseChat_numeric_id_over_handle chatC9 (by decide) (by decide)⟩

/-- C10: a `BaseEdit` with a non-empty inline message identifier produces
parameters holding `inline_message_id` and omitting `chat_id` and
`message_id` regardless of their values; with an empty inline identifier the
parameters omit `inline_message_id` and instead target the message by
`chat_id` (numeric identifier if non-zero, else channel handle) and by a
non-zero `message_id`. -/
theorem baseEdit_inline_message_target (edit : BaseEdit) :
    (edit.InlineMessageID ≠ "" →
      Params.find? (edit.params).1 "inline_message_id" = some edit.InlineMessageID
      ∧ Params.find? (edit.params).1 "chat_id" = none
      ∧ Params.find? (edit.params).1 "message_id" = none)
    ∧ (edit.InlineMessageID = "" →
      Params.find? (edit.params).1 "inline_message_id" = none
      ∧ (edit.ChatID ≠ 0 →
          Params.find? (edit.params).1 "chat_id" = some (toString edit.ChatID))
      ∧ (edit.ChatID = 0 → edit.ChannelUsername ≠ "" →
          Params.find? (edit.params).1 "chat_id" = some edit.ChannelUsername)
      ∧ (edit.MessageID ≠ 0 →
          Params.find? (edit.params).1 "message_id" = some (toString edit.MessageID))
      ∧ (edit.MessageID = 0 →
          Params.find? (edit.params).1 "message_id" = none)) := by
  constructor
  · intro hne
    simp only [BaseEdit.params, if_pos hne]
    refine ⟨?_, ?_, ?_⟩ <;>
      rw [Params.find?_AddInterface_other _ _ _ _ (by decide), Params.find?_set] <;>
      simp [Params.find?]
  · intro heq
    simp only [BaseEdit.params, heq]
    rw [if_neg (by simp)]
    refine ⟨?_, fun hcid => ?_, fun hcid huser => ?_, fun hmid => ?_, fun hmid => ?_⟩
    · rw [Params.find?_AddInterface_other _ _ _ _ (by decide),
        Params.find?_AddNonZero_other _ _ _ _ (by decide),
        Params.find?_AddFirstValid_other _ _ _ _ _ (by decide)]
      rfl
    · rw [Params.find?_AddInterface_other _ _ _ _ (by decide),
        Params.find?_AddNonZero_other _ _ _ _ (by decide),
        Params.find?_AddFirstValid_self]
      simp [hcid]
    · rw [Params.find?_AddInterface_other _ _ _ _ (by decide),
        Params.find?_AddNonZero_other _ _ _ _ (by decide),
        Params.find?_AddFirstValid_self]
      simp [hcid, huser]
    · rw [Params.find?_AddInterface_other _ _ _ _ (by decide),
        Params.find?_AddNonZero_self]
      simp [hmid]
    · rw [Params.find?_AddInterface_other _ _ _ _ (by decide),
        Params.find?_AddNonZero_self]
      simp only [hmid]
      rw [Params.find?_AddFirstValid_other _ _ _ _ _ (by decide)]
      simp [Params.find?]

/-- An edit targeting an inline message, with non-zero chat and message
identifiers to exercise "regardless of their values". -/
def editC10 : BaseEdit := ⟨7, "", 9, "abc123", none⟩

/-- An edit targeting a chat message. -/
def editC10b : BaseEdit := ⟨55, "chan", 9, "", none⟩

/-- Witness for C10 at both targeting styles. -/
theorem baseEdit_inline_message_target_witness :
    (Params.find? (editC10.params).1 "inline_message_id" =
        some editC10.InlineMessageID
      ∧ Params.find? (editC10.params).1 "chat_id" = none
      ∧ Params.find? (editC10.params).1 "message_id" = none)
    ∧ Params.find? (editC10b.params).1 "chat_id" = some (toString editC10b.ChatID)
    ∧ Params.find? (editC10b.params).1 "message_id" =
        some (toString editC10b.MessageID) :=
  ⟨(baseEdit_inline_message_target editC10).1 (by decide),
    ((baseEdit_inline_message_target editC10b).2 (by decide)).2.1 (by decide),
    ((baseEdit_inline_message_target editC10b).2 (by decide)).2.2.2.1 (by decide)⟩

end TgAPIManager
